import Mathlib

/-!
Shallow embedding of `custom_components/circadian_hue/switch.py`.

Hue light states carry an on/off flag, an integer brightness `bri`, and an
optional chromaticity pair `xy`; Python floats are modelled as rationals.
Bridge traffic is modelled as a trace of `Action`s; a Python `KeyError`
(accessing a stored `xy` that is absent while the live light reports one)
is modelled by returning `none`.
-/

namespace CircadianHue

/-- A Hue light state as it appears both in the bridge's live light cache
(`bridge.api.lights[id].state`) and in a scene's stored `lightstates` entry:
`{on, bri, xy?}`. -/
structure LightState where
  «on» : Bool
  bri : Int
  xy : Option (ℚ × ℚ)
deriving DecidableEq, Repr

/-- A light object from the bridge cache: an identifier plus its state. -/
structure Light where
  id : String
  state : LightState
deriving DecidableEq, Repr

/-- A scene from the bridge's scene cache: identifier, name and member-light ids. -/
structure Scene where
  id : String
  name : String
  lights : List String
deriving DecidableEq, Repr

/-- A light group (`group.lights` in the source). -/
structure Group where
  lights : List String
deriving DecidableEq, Repr

/-- A partial state patch produced by `get_lightstate`: each field is present
in the Python dict exactly when the corresponding `Option` is `some`
(the dict comprehension drops `None` values). -/
structure Patch where
  «on» : Option Bool
  xy : Option (ℚ × ℚ)
  bri : Option Int
  transitiontime : Option Int
deriving DecidableEq, Repr

/-- One network interaction of `update_bridge`, in issue order. -/
inductive Action where
  | refreshScenes
  | refreshLights
  | getScene (id : String)
  | putScene (id : String) (lightstates : List (String × Patch))
  | setLight (id : String) (patch : Patch)
deriving DecidableEq, Repr

/-- `is_circadian_scene(group, scene)`:
`set(group.lights) == set(scene.lights) and scene.name == "Circadian"`. -/
def is_circadian_scene (group : Group) (scene : Scene) : Bool :=
  decide (group.lights.toFinset = scene.lights.toFinset) && (scene.name == "Circadian")

/-- Python `int()` truncation toward zero, on rationals. -/
def pyInt (q : ℚ) : Int :=
  if 0 ≤ q then ⌊q⌋ else -⌊-q⌋

/-- The brightness computation in `get_lightstate`:
`255 if percent > 0 else 255 * ((100 + percent) / 100)`. -/
def brightness (percent : ℚ) : ℚ :=
  if percent > 0 then 255 else 255 * ((100 + percent) / 100)

/-- `get_lightstate(lights, set_brightness)`: maps each light id to its patch.
`on` and `transitiontime` are always present; `xy` is the sensor's color and is
present iff the light's current state has an `xy` field; `bri` is
`int(brightness)` and is present iff `set_brightness`. -/
def get_lightstate (xy_color : ℚ × ℚ) (percent : ℚ) (lights : List Light)
    (set_brightness : Bool) : List (String × Patch) :=
  lights.map (fun light =>
    (light.id,
      { «on» := some true
        xy := if light.state.xy.isSome then some xy_color else none
        bri := if set_brightness then some (pyInt (brightness percent)) else none
        transitiontime := some 20 }))

/-- One iteration of the scene-activity loop in `update_bridge`, over one
`(stored, live)` pair (`state`, `current_state` in the source). The
accumulator is `(is_current_scene, brightness_changed)`. Returns `none` when
the source would raise `KeyError` (`state['xy']` absent while
`'xy' in current_state`). -/
def checkLight (acc : Bool × Bool) (p : LightState × LightState) :
    Option (Bool × Bool) :=
  let stored := p.1
  let live := p.2
  let isCur := if live.«on» != stored.«on» then false else acc.1
  let brCh := if 5 < |live.bri - stored.bri| then true else acc.2
  match live.xy with
  | none => some (isCur, brCh)
  | some lxy =>
    match stored.xy with
    | none => none
    | some sxy =>
      if 2/100 < |lxy.1 - sxy.1| ∨ 2/100 < |lxy.2 - sxy.1| then some (false, brCh)
      else some (isCur, brCh)

/-- The scene-activity loop folded over all `(stored, live)` pairs. -/
def checkSceneAux (acc : Bool × Bool) :
    List (LightState × LightState) → Option (Bool × Bool)
  | [] => some acc
  | p :: rest =>
    match checkLight acc p with
    | none => none
    | some acc2 => checkSceneAux acc2 rest

/-- The scene-activity computation of `update_bridge`, starting from
`is_current_scene = True`, `brightness_changed = False`. -/
def checkScene (l : List (LightState × LightState)) : Option (Bool × Bool) :=
  checkSceneAux (true, false) l

/-- The `(stored, live)` pairs for one scene: the scene-detail response's
`lightstates` entries joined with the bridge's live light cache. -/
def scenePairs (details : String → List (String × LightState))
    (lm : String → LightState) (sceneId : String) :
    List (LightState × LightState) :=
  (details sceneId).map (fun p => (p.2, lm p.1))

/-- `list(map(lambda id: bridge.api.lights[id], scene.lights))`. -/
def sceneLightObjs (lm : String → LightState) (scene : Scene) : List Light :=
  scene.lights.map (fun i => ⟨i, lm i⟩)

/-- The body of `update_bridge`'s per-scene loop: skip scenes not named
"Circadian"; otherwise fetch the scene detail, run the activity check, always
put the freshly computed state back into the scene, and, when the scene is
judged active, push the state (brightness suppressed iff a manual brightness
change was detected) to each member light. `none` models an uncaught
`KeyError` from the activity check. -/
def processScene (details : String → List (String × LightState))
    (lm : String → LightState) (xy_color : ℚ × ℚ) (percent : ℚ)
    (scene : Scene) : Option (List Action) :=
  if scene.name ≠ "Circadian" then some []
  else
    match checkScene (scenePairs details lm scene.id) with
    | none => none
    | some (isCur, brCh) =>
      some ([Action.getScene scene.id,
             Action.putScene scene.id
               (get_lightstate xy_color percent (sceneLightObjs lm scene) true)]
            ++ (if isCur then
                  (get_lightstate xy_color percent (sceneLightObjs lm scene) (!brCh)).map
                    (fun pr => Action.setLight pr.1 pr.2)
                else []))

/-- The `for scene_id in scenes` loop of `update_bridge`: each scene is run
through `processScene` in order; an uncaught `KeyError` (`none`) propagates. -/
def processScenes (details : String → List (String × LightState))
    (lm : String → LightState) (xy_color : ℚ × ℚ) (percent : ℚ) :
    List Scene → Option (List Action)
  | [] => some []
  | s :: rest =>
    match processScene details lm xy_color percent s with
    | none => none
    | some acts =>
      match processScenes details lm xy_color percent rest with
      | none => none
      | some more => some (acts ++ more)

/-- `update_bridge`, as the trace of bridge interactions it issues.
`st` is `self._state` (`None`/`False`/`True`); the `is not True` guard returns
before any call. Both cache refreshes are issued; the scene-refresh result is
ignored (`_sceneRefreshOk`), while a failed light refresh
(`lightRefreshOk = false`) aborts before any scene is processed. -/
def update_bridge (st : Option Bool) (_sceneRefreshOk lightRefreshOk : Bool)
    (scenes : List Scene) (details : String → List (String × LightState))
    (lm : String → LightState) (xy_color : ℚ × ℚ) (percent : ℚ) :
    Option (List Action) :=
  if st ≠ some true then some []
  else if lightRefreshOk then
    (processScenes details lm xy_color percent scenes).map
      (fun ls => Action.refreshScenes :: Action.refreshLights :: ls)
  else some [Action.refreshScenes, Action.refreshLights]

/-- `async_added_to_hass`: if `self._state is not None` return unchanged;
otherwise `self._state = state and state.state == STATE_ON`, where a missing
persisted state (`None`) leaves `_state` as Python `None`. -/
def async_added_to_hass (st : Option Bool) (persisted : Option String) :
    Option Bool :=
  match st with
  | some _ => st
  | none =>
    match persisted with
    | none => none
    | some s => some (s == "on")

/-- The `is_on` property: returns `self._state` unchanged. -/
def is_on (st : Option Bool) : Option Bool :=
  st

/-- Python truthiness of a `None`/`False`/`True` value. -/
def pyTruthy (b : Option Bool) : Bool :=
  b.getD false

/-- One step of a poll cycle, as observed bridge-facing behaviour. -/
inductive PollAction where
  | enumerateBridges
  | sleep (secs : Nat)
  | bridgeUpdate (idx : Nat)
deriving DecidableEq, Repr

/-- Outcome of one `async_update_info` invocation: the actions it performed,
whether the entity's lock is held after it returns, and whether an exception
propagated out of it. -/
structure PollResult where
  actions : List PollAction
  lockHeldAfter : Bool
  raised : Bool
deriving DecidableEq, Repr

/-- The body of `async_update_info` guarded by the lock (the `try` block):
enumerate bridges; with none, optionally back off 5 s (scheduled call) and
return; otherwise launch one concurrent update per bridge. The second
component records whether `asyncio.wait` re-raises (`raises`). -/
def pollBody (numBridges : Nat) (now raises : Bool) :
    List PollAction × Bool :=
  if numBridges = 0 then
    (PollAction.enumerateBridges :: (if now then [PollAction.sleep 5] else []), false)
  else
    (PollAction.enumerateBridges ::
      (List.range numBridges).map PollAction.bridgeUpdate, raises)

/-- `async_update_info`: `self.lock.acquire(False)`; when the lock is already
held the call returns at once having done nothing; otherwise the body runs
inside `try ... finally: self.lock.release()`, so the lock is released on
every exit path, an exception included. -/
def async_update_info (lockHeld : Bool) (numBridges : Nat) (now raises : Bool) :
    PollResult :=
  if lockHeld then ⟨[], true, false⟩
  else
    let body := pollBody numBridges now raises
    ⟨body.1, false, body.2⟩

/-- Boolean per-light match used to state the activity invariant: the live
on/off equals the stored one, and when the live state has `xy`, both live
coordinates are within 0.02 of the stored x-coordinate. -/
def lightMatches (p : LightState × LightState) : Bool :=
  (p.2.«on» == p.1.«on») &&
  (match p.2.xy, p.1.xy with
   | none, _ => true
   | some _, none => false
   | some lxy, some sxy =>
     decide (|lxy.1 - sxy.1| ≤ 2/100) && decide (|lxy.2 - sxy.1| ≤ 2/100))

/-- Boolean per-light brightness-divergence test: `abs(live.bri - stored.bri) > 5`. -/
def briBeyond (p : LightState × LightState) : Bool :=
  decide (5 < |p.2.bri - p.1.bri|)

/-- C2: in `get_lightstate`, a percentage in (0, 100] yields brightness 255,
a percentage in [-100, 0] yields `255 * (100 + p) / 100`, and on [-100, 0]
the computed brightness is monotonically increasing in the percentage. -/
theorem C2_brightness_curve (p q : ℚ) :
    (0 < p → brightness p = 255) ∧
    (-100 ≤ p → p ≤ 0 → brightness p = 255 * ((100 + p) / 100)) ∧
    (-100 ≤ p → p < q → q ≤ 0 → brightness p < brightness q) := by
  refine ⟨fun hp => ?_, fun _ h2 => ?_, fun _ h2 h3 => ?_⟩
  · simp [brightness, hp]
  · simp [brightness, not_lt.mpr h2]
  · have e1 : brightness p = 255 * ((100 + p) / 100) := by
      simp [brightness, not_lt.mpr (le_of_lt (lt_of_lt_of_le h2 h3))]
    have e2 : brightness q = 255 * ((100 + q) / 100) := by
      simp [brightness, not_lt.mpr h3]
    rw [e1, e2]
    have h100 : (0:ℚ) < 100 := by norm_num
    have hd : (100 + p) / 100 < (100 + q) / 100 :=
      (div_lt_div_iff_of_pos_right h100).mpr (by linarith)
    exact mul_lt_mul_of_pos_left hd (by norm_num)

/-- Witness for C2 at p = -50, q = -25. -/
theorem C2_brightness_curve_witness :
    brightness (-50) = 255 * ((100 + (-50)) / 100) ∧
    brightness (-50) < brightness (-25) :=
  ⟨(C2_brightness_curve (-50) (-25)).2.1 (by decide) (by decide),
   (C2_brightness_curve (-50) (-25)).2.2 (by decide) (by decide) (by decide)⟩

/-- C4: when the entity's state is not ON (`None` or `False`), `update_bridge`
issues no bridge interaction at all and returns at once. -/
theorem C4_off_gates_all_traffic (st : Option Bool) (sOk lOk : Bool)
    (scenes : List Scene) (details : String → List (String × LightState))
    (lm : String → LightState) (xy : ℚ × ℚ) (pct : ℚ)
    (h : st ≠ some true) :
    update_bridge st sOk lOk scenes details lm xy pct = some [] := by
  simp [update_bridge, h]

/-- Witness for C4 with an unset state. -/
theorem C4_off_gates_all_traffic_witness :
    update_bridge none true true [⟨"s1", "Circadian", ["l1"]⟩]
      (fun _ => []) (fun _ => ⟨true, 0, none⟩) (0, 0) 0 = some [] :=
  C4_off_gates_all_traffic none true true [⟨"s1", "Circadian", ["l1"]⟩]
    (fun _ => []) (fun _ => ⟨true, 0, none⟩) (0, 0) 0 (by decide)

/-- C5: each patch produced by `get_lightstate` has `on = true` and
`transitiontime = 20`; its `xy` field is present iff the light's current state
has an `xy` field; its `bri` field is present iff the include-brightness flag
is set, and is then the integer `int(brightness)`. -/
theorem C5_patch_fields (xy : ℚ × ℚ) (pct : ℚ) (lights : List Light) (b : Bool)
    (i : Nat) (light : Light) (h : lights[i]? = some light) :
    (get_lightstate xy pct lights b)[i]? =
      some (light.id,
        { «on» := some true
          xy := if light.state.xy.isSome then some xy else none
          bri := if b then some (pyInt (brightness pct)) else none
          transitiontime := some 20 }) := by
  simp [get_lightstate, h]

/-- Witness for C5: a light without a live xy field and the flag off yields a
patch with neither `xy` nor `bri`. -/
theorem C5_patch_fields_witness :
    (get_lightstate (0, 0) 7 [⟨"l1", ⟨true, 10, none⟩⟩] false)[0]? =
      some ("l1", { «on» := some true, xy := none, bri := none,
                    transitiontime := some 20 }) := by
  have h := C5_patch_fields (0, 0) 7 [⟨"l1", ⟨true, 10, none⟩⟩] false 0
    ⟨"l1", ⟨true, 10, none⟩⟩ rfl
  simpa using h

/-- C6: `async_added_to_hass` leaves an already-set state unchanged; on an
unset state it adopts ON iff the persisted state string equals "on", adopts
OFF on any other persisted string, and with no persisted state `is_on`
resolves to false. -/
theorem C6_state_restore (st : Option Bool) (persisted : Option String) :
    (∀ b : Bool, st = some b → async_added_to_hass st persisted = st) ∧
    (st = none →
      (async_added_to_hass st persisted = some true ↔ persisted = some "on")) ∧
    (st = none → ∀ s, persisted = some s → s ≠ "on" →
      async_added_to_hass st persisted = some false) ∧
    (st = none → persisted = none →
      pyTruthy (is_on (async_added_to_hass st persisted)) = false) := by
  refine ⟨fun b hb => ?_, fun hst => ?_, fun hst s hs hne => ?_, fun hst hp => ?_⟩
  · subst hb; rfl
  · subst hst
    cases persisted with
    | none => simp [async_added_to_hass]
    | some s => simp [async_added_to_hass]
  · subst hst; subst hs; simp [async_added_to_hass, hne]
  · subst hst; subst hp; rfl

/-- Witness for C6: a persisted "on" restores ON; no persisted state leaves
`is_on` false. -/
theorem C6_state_restore_witness :
    async_added_to_hass none (some "on") = some true ∧
    pyTruthy (is_on (async_added_to_hass none none)) = false :=
  ⟨((C6_state_restore none (some "on")).2.1 rfl).mpr rfl,
   (C6_state_restore none none).2.2.2 rfl rfl⟩

/-- C7: with the entity ON, a failed light-cache refresh aborts the per-bridge
cycle right after the two refresh attempts, before any scene is processed,
while the scene-cache refresh result never changes the trace. -/
theorem C7_light_refresh_mandatory (sOk sOk2 : Bool) (scenes : List Scene)
    (details : String → List (String × LightState)) (lm : String → LightState)
    (xy : ℚ × ℚ) (pct : ℚ) :
    update_bridge (some true) sOk false scenes details lm xy pct
      = some [Action.refreshScenes, Action.refreshLights] ∧
    update_bridge (some true) sOk true scenes details lm xy pct
      = update_bridge (some true) sOk2 true scenes details lm xy pct := by
  constructor <;> simp [update_bridge]

/-- C8: a poll-cycle invocation that finds the non-blocking lock already held
returns at once: no bridge enumeration, no sleep, no bridge update, no
exception, and it does not release the other invocation's lock. -/
theorem C8_reentrant_call_drops (n : Nat) (now raises : Bool) :
    async_update_info true n now raises = ⟨[], true, false⟩ := by
  simp [async_update_info]

/-- C10: a poll-cycle invocation that acquires the lock releases it on every
exit path - no bridges (with or without the backoff sleep) and a raising
per-bridge update alike - while an exception from the body still propagates. -/
theorem C10_lock_always_released (n : Nat) (now raises : Bool) :
    (async_update_info false n now raises).lockHeldAfter = false ∧
    (async_update_info false n now raises).raised = (pollBody n now raises).2 := by
  constructor <;> simp [async_update_info]


theorem checkLight_eq (acc : Bool × Bool) (p : LightState × LightState)
    (hp : p.2.xy.isSome = true → p.1.xy.isSome = true) :
    checkLight acc p = some (acc.1 && lightMatches p, acc.2 || briBeyond p) := by
  obtain ⟨stored, live⟩ := p
  obtain ⟨a1, a2⟩ := acc
  cases hxy : live.xy with
  | none =>
    cases hon : live.«on» == stored.«on» <;>
    by_cases hbri : 5 < |live.bri - stored.bri| <;>
      simp_all [checkLight, lightMatches, briBeyond, bne, Bool.or_comm]
  | some lxy =>
    cases hsxy : stored.xy with
    | none => exact absurd (hp (by simp [hxy])) (by simp [hsxy])
    | some sxy =>
      cases hon : live.«on» == stored.«on» <;>
      by_cases hbri : 5 < |live.bri - stored.bri| <;>
      by_cases hx1 : (2/100 : ℚ) < |lxy.1 - sxy.1| <;>
      by_cases hx2 : (2/100 : ℚ) < |lxy.2 - sxy.1| <;>
        simp_all [checkLight, lightMatches, briBeyond, bne, Bool.or_comm, not_lt]

theorem checkSceneAux_eq (l : List (LightState × LightState)) (acc : Bool × Bool)
    (h : ∀ p ∈ l, p.2.xy.isSome = true → p.1.xy.isSome = true) :
    checkSceneAux acc l = some (acc.1 && l.all lightMatches, acc.2 || l.any briBeyond) := by
  induction l generalizing acc with
  | nil => simp [checkSceneAux]
  | cons p rest ih =>
    simp only [checkSceneAux, checkLight_eq acc p (h p (List.mem_cons_self p rest))]
    rw [ih _ (fun q hq => h q (List.mem_cons_of_mem p hq))]
    simp [Bool.and_assoc, Bool.or_assoc]

theorem lightMatches_iff (p : LightState × LightState)
    (hp : p.2.xy.isSome = true → p.1.xy.isSome = true) :
    lightMatches p = true ↔ (p.2.«on» = p.1.«on» ∧
      ∀ lxy ∈ p.2.xy, ∀ sxy ∈ p.1.xy,
        |lxy.1 - sxy.1| ≤ 2/100 ∧ |lxy.2 - sxy.1| ≤ 2/100) := by
  obtain ⟨stored, live⟩ := p
  cases hxy : live.xy with
  | none => simp [lightMatches, hxy]
  | some lxy =>
    cases hsxy : stored.xy with
    | none => exact absurd (hp (by simp [hxy])) (by simp [hsxy])
    | some sxy => simp [lightMatches, hxy, hsxy, and_assoc]

/-- C1: the scene-activity loop judges the scene currently active iff every
member light's live on/off equals its stored on/off and no light with a live
xy field diverges beyond 0.02 on the checked coordinates (each live coordinate
against the stored x-coordinate only); the brightness-changed flag is set iff
some light's live brightness differs from the stored one by more than 5, and
it plays no part in the activity verdict. -/
theorem C1_scene_activity (l : List (LightState × LightState))
    (h : ∀ p ∈ l, p.2.xy.isSome = true → p.1.xy.isSome = true) :
    ∃ a b : Bool, checkScene l = some (a, b) ∧
      (a = true ↔ ∀ p ∈ l, p.2.«on» = p.1.«on» ∧
        ∀ lxy ∈ p.2.xy, ∀ sxy ∈ p.1.xy,
          |lxy.1 - sxy.1| ≤ 2/100 ∧ |lxy.2 - sxy.1| ≤ 2/100) ∧
      (b = true ↔ ∃ p ∈ l, 5 < |p.2.bri - p.1.bri|) := by
  refine ⟨l.all lightMatches, l.any briBeyond, ?_, ?_, ?_⟩
  · unfold checkScene
    rw [checkSceneAux_eq l (true, false) h]
    simp
  · rw [List.all_eq_true]
    exact ⟨fun hall p hp => (lightMatches_iff p (h p hp)).mp (hall p hp),
           fun hall p hp => (lightMatches_iff p (h p hp)).mpr (hall p hp)⟩
  · simp [List.any_eq_true, briBeyond]

/-- Witness for C1 on a one-light scene whose brightness diverged by 50. -/
theorem C1_scene_activity_witness :
    ∃ a b : Bool,
      checkScene [((⟨true, 200, none⟩ : LightState), (⟨true, 150, none⟩ : LightState))]
        = some (a, b) ∧
      (a = true ↔ ∀ p ∈ [((⟨true, 200, none⟩ : LightState), (⟨true, 150, none⟩ : LightState))],
        p.2.«on» = p.1.«on» ∧
        ∀ lxy ∈ p.2.xy, ∀ sxy ∈ p.1.xy,
          |lxy.1 - sxy.1| ≤ 2/100 ∧ |lxy.2 - sxy.1| ≤ 2/100) ∧
      (b = true ↔ ∃ p ∈ [((⟨true, 200, none⟩ : LightState), (⟨true, 150, none⟩ : LightState))],
        5 < |p.2.bri - p.1.bri|) :=
  C1_scene_activity _ (by intro p hp hs; rw [List.mem_singleton] at hp; subst hp; simp at hs)


theorem setLight_mem_map_iff (gl : List (String × Patch)) (lid : String) (p : Patch) :
    (Action.setLight lid p ∈ gl.map (fun pr => Action.setLight pr.1 pr.2)) ↔
      (lid, p) ∈ gl := by
  induction gl with
  | nil => simp
  | cons q rest ih =>
    simp only [List.map_cons, List.mem_cons, ih]
    constructor
    · rintro (h | h)
      · obtain ⟨h1, h2⟩ := Action.setLight.inj h
        exact Or.inl (by rw [← Prod.mk.eta (p := q), ← h1, ← h2])
      · exact Or.inr h
    · rintro (h | h)
      · exact Or.inl (by rw [← h])
      · exact Or.inr h

theorem mem_get_lightstate (xy : ℚ × ℚ) (pct : ℚ) (lights : List Light)
    (b : Bool) (lid : String) (p : Patch)
    (h : (lid, p) ∈ get_lightstate xy pct lights b) :
    p.bri = if b then some (pyInt (brightness pct)) else none := by
  simp only [get_lightstate, List.mem_map] at h
  obtain ⟨light, _, heq⟩ := h
  have hp : p = { «on» := some true
                  xy := if light.state.xy.isSome then some xy else none
                  bri := if b then some (pyInt (brightness pct)) else none
                  transitiontime := some 20 } := (congrArg Prod.snd heq).symm
  rw [hp]

/-- C3: for a scene named "Circadian" whose activity check completes, the
per-scene body always issues the scene update request carrying the freshly
computed state (brightness included), whatever the activity and
brightness-changed flags; a direct per-light state-set action occurs iff the
scene was judged currently active and the pair occurs in the recomputed state,
and every pushed per-light patch omits brightness exactly when a manual
brightness change was detected. -/
theorem C3_scene_put_and_light_push
    (details : String → List (String × LightState)) (lm : String → LightState)
    (xy : ℚ × ℚ) (pct : ℚ) (scene : Scene) (isCur brCh : Bool)
    (acts : List Action)
    (hname : scene.name = "Circadian")
    (hchk : checkScene (scenePairs details lm scene.id) = some (isCur, brCh))
    (hproc : processScene details lm xy pct scene = some acts) :
    Action.putScene scene.id
        (get_lightstate xy pct (sceneLightObjs lm scene) true) ∈ acts ∧
    (∀ lid p, Action.setLight lid p ∈ acts ↔
      (isCur = true ∧
        (lid, p) ∈ get_lightstate xy pct (sceneLightObjs lm scene) (!brCh))) ∧
    (∀ lid p, Action.setLight lid p ∈ acts → (p.bri = none ↔ brCh = true)) := by
  rw [processScene, if_neg (by simp [hname]), hchk] at hproc
  rw [Option.some_inj] at hproc
  subst hproc
  have hiff : ∀ lid p, Action.setLight lid p ∈
      ([Action.getScene scene.id,
        Action.putScene scene.id
          (get_lightstate xy pct (sceneLightObjs lm scene) true)]
        ++ (if isCur then
              (get_lightstate xy pct (sceneLightObjs lm scene) (!brCh)).map
                (fun pr => Action.setLight pr.1 pr.2)
            else [])) ↔
      (isCur = true ∧
        (lid, p) ∈ get_lightstate xy pct (sceneLightObjs lm scene) (!brCh)) := by
    intro lid p
    cases isCur <;> simp [setLight_mem_map_iff]
  refine ⟨by simp, hiff, fun lid p hmem => ?_⟩
  obtain ⟨-, hmem2⟩ := (hiff lid p).mp hmem
  have hbri := mem_get_lightstate xy pct (sceneLightObjs lm scene) (!brCh) lid p hmem2
  cases brCh <;> simp_all

/-- Witness for C3: one light, brightness manually changed (diff 50), scene
still active; the put carries the fresh state and the direct push occurs. -/
theorem C3_scene_put_and_light_push_witness :
    Action.putScene "s1"
        (get_lightstate (0, 0) 0
          (sceneLightObjs (fun _ => ⟨true, 150, none⟩) ⟨"s1", "Circadian", ["l1"]⟩) true)
      ∈ [Action.getScene "s1",
         Action.putScene "s1"
           (get_lightstate (0, 0) 0
             (sceneLightObjs (fun _ => ⟨true, 150, none⟩) ⟨"s1", "Circadian", ["l1"]⟩) true),
         Action.setLight "l1" ⟨some true, none, none, some 20⟩] :=
  (C3_scene_put_and_light_push (fun _ => [("l1", ⟨true, 200, none⟩)])
    (fun _ => ⟨true, 150, none⟩) (0, 0) 0 ⟨"s1", "Circadian", ["l1"]⟩ true true
    _ rfl (by decide)
    (by simp [processScene, checkScene, checkSceneAux, checkLight, scenePairs,
          sceneLightObjs, get_lightstate])).1

/-- C9 counterexample: a scene named "Circadian" whose member set differs from
the target group (so `is_circadian_scene` rejects it) is still fully processed
by the per-bridge update. -/
theorem C9_counterexample_processed_without_set_equality :
    is_circadian_scene ⟨["l1", "l2"]⟩ ⟨"s2", "Circadian", ["l3"]⟩ = false ∧
    update_bridge (some true) true true [⟨"s2", "Circadian", ["l3"]⟩]
        (fun _ => [("l3", ⟨true, 200, none⟩)]) (fun _ => ⟨true, 150, none⟩) (0, 0) 0 =
      some [Action.refreshScenes, Action.refreshLights,
            Action.getScene "s2",
            Action.putScene "s2"
              (get_lightstate (0, 0) 0
                (sceneLightObjs (fun _ => ⟨true, 150, none⟩) ⟨"s2", "Circadian", ["l3"]⟩) true),
            Action.setLight "l3" ⟨some true, none, none, some 20⟩] := by
  constructor
  · decide
  · simp [update_bridge, processScenes, processScene, checkScene, checkSceneAux,
      checkLight, scenePairs, sceneLightObjs, get_lightstate]

/-- C9 amended: scenes acted upon by the per-bridge update are selected by
name alone - every scene named "Circadian" (whose activity check completes) is
processed, and every other scene is skipped; membership set-equality against a
target group is not consulted. -/
theorem C9_amended_selection_by_name_only
    (details : String → List (String × LightState)) (lm : String → LightState)
    (xy : ℚ × ℚ) (pct : ℚ) (scene : Scene) :
    (scene.name ≠ "Circadian" → processScene details lm xy pct scene = some []) ∧
    (∀ isCur brCh : Bool, scene.name = "Circadian" →
      checkScene (scenePairs details lm scene.id) = some (isCur, brCh) →
      ∃ acts, processScene details lm xy pct scene = some acts ∧
        Action.getScene scene.id ∈ acts) := by
  constructor
  · intro h
    rw [processScene, if_pos h]
  · intro isCur brCh hname hchk
    refine ⟨[Action.getScene scene.id,
             Action.putScene scene.id
               (get_lightstate xy pct (sceneLightObjs lm scene) true)]
            ++ (if isCur then
                  (get_lightstate xy pct (sceneLightObjs lm scene) (!brCh)).map
                    (fun pr => Action.setLight pr.1 pr.2)
                else []), ?_, by simp⟩
    rw [processScene, if_neg (by simp [hname]), hchk]

/-- Witness for C9's amended claim: a scene named otherwise is skipped. -/
theorem C9_amended_selection_by_name_only_witness :
    processScene (fun _ => []) (fun _ => ⟨true, 0, none⟩) (0, 0) 0
      ⟨"s3", "Other", ["l1"]⟩ = some [] :=
  (C9_amended_selection_by_name_only (fun _ => []) (fun _ => ⟨true, 0, none⟩)
    (0, 0) 0 ⟨"s3", "Other", ["l1"]⟩).1 (by decide)

end CircadianHue
